import Mathlib

/-!
Verification development for the conversational-analytics repository.
Shallow embedding of the query-result cache (app/core/database.py,
CacheManager), the warehouse query service (app/services/snowflake_service.py,
SnowflakeService.execute_query) and the alert evaluation / notification
pipeline (app/api/endpoints/alerts.py).

Modelling conventions:
- timestamps are naturals (seconds);
- Python floats are modelled exactly: finite values by the rational value of
  their shortest decimal representation (PyCell.cdec m e denotes m / 10^e),
  plus the non-finite values inf, -inf and nan; comparisons between floats
  are exact, as in IEEE-754 (nan compares false except for inequality);
- fallible operations (sqlite calls, the warehouse round trip, SMTP/webhook
  transports) are parameterised by explicit fault/outcome flags and return
  Except where the Python code may raise;
- the sha-256 cache key of CacheManager.get_cache_key is modelled by an
  injective key function (collisions are ignored).
-/

/-- Python scalar cell values as they appear in a result row
(snowflake_service returns rows as flat dicts of scalars).
Booleans are a subclass of int in Python, which matters for
metric extraction in check_alert_condition. -/
inductive PyCell where
  | cnone : PyCell
  | cbool (b : Bool) : PyCell
  | cint (n : Int) : PyCell
  | cdec (m : Int) (e : Nat) : PyCell
  | cinf : PyCell
  | cninf : PyCell
  | cnan : PyCell
  | cstr (s : String) : PyCell
deriving DecidableEq, Repr

/-- A result row: the dict produced by dict(zip(columns, row)), in column
order. -/
abbrev PyRow : Type := List (String × PyCell)

/-- result["data"]: the list of rows of a query result. -/
abbrev QueryData : Type := List (List (String × PyCell))

/-- A Python float value: a finite value (exact rational) or one of the
non-finite values. -/
inductive PyFloat where
  | fin (q : ℚ) : PyFloat
  | inf : PyFloat
  | ninf : PyFloat
  | nan : PyFloat
deriving DecidableEq, Repr

/-- Exact IEEE-style strict less-than on Python floats (nan compares false). -/
def pyLtF : PyFloat → PyFloat → Bool
  | PyFloat.nan, _ => false
  | _, PyFloat.nan => false
  | PyFloat.fin a, PyFloat.fin b => decide (a < b)
  | PyFloat.fin _, PyFloat.inf => true
  | PyFloat.fin _, PyFloat.ninf => false
  | PyFloat.inf, _ => false
  | PyFloat.ninf, PyFloat.ninf => false
  | PyFloat.ninf, _ => true

/-- Exact equality on Python floats (nan is not equal to anything). -/
def pyEqF : PyFloat → PyFloat → Bool
  | PyFloat.nan, _ => false
  | _, PyFloat.nan => false
  | PyFloat.fin a, PyFloat.fin b => decide (a = b)
  | PyFloat.inf, PyFloat.inf => true
  | PyFloat.ninf, PyFloat.ninf => true
  | _, _ => false

/-- Exact less-or-equal on Python floats. -/
def pyLeF (a b : PyFloat) : Bool := pyLtF a b || pyEqF a b

/-- isinstance(value, (int, float)): true for bools (bool is a subclass of
int), ints and all floats; false for None and strings. -/
def cellIsNumeric : PyCell → Bool
  | PyCell.cbool _ => true
  | PyCell.cint _ => true
  | PyCell.cdec _ _ => true
  | PyCell.cinf => true
  | PyCell.cninf => true
  | PyCell.cnan => true
  | PyCell.cnone => false
  | PyCell.cstr _ => false

/-- The exact rational value of the decimal m * 10^(-e). -/
def decValue (m : Int) (e : Nat) : ℚ := (m : ℚ) / ((10 : ℚ) ^ e)

/-- float(value) applied to a numeric cell: bools map to 0.0/1.0. -/
def cellToFloat : PyCell → PyFloat
  | PyCell.cbool b => PyFloat.fin (if b then 1 else 0)
  | PyCell.cint n => PyFloat.fin (n : ℚ)
  | PyCell.cdec m e => PyFloat.fin (decValue m e)
  | PyCell.cinf => PyFloat.inf
  | PyCell.cninf => PyFloat.ninf
  | PyCell.cnan => PyFloat.nan
  | PyCell.cnone => PyFloat.fin 0
  | PyCell.cstr _ => PyFloat.fin 0

/-- The metric-extraction loop of check_alert_condition: scan the first row's
items in order and take float(value) of the first field whose value is
isinstance (int, float). -/
def findMetricValue : List (String × PyCell) → Option PyFloat
  | [] => none
  | (_, v) :: rest =>
      if cellIsNumeric v then some (cellToFloat v) else findMetricValue rest

/-- The alerts-table record (AlertResponse / row of the alerts table). -/
structure Alert where
  id : Nat
  userId : Nat
  alertName : String
  metric : String
  thresholdValue : ℚ
  condition : String
  notificationMethod : String
  sqlQuery : String
  isActive : Bool
  lastChecked : Option Nat
  lastTriggered : Option Nat
  triggerCount : Nat
  createdAt : Nat
deriving DecidableEq, Repr

/-- The comparator dispatch of check_alert_condition: condition_met starts
False and is set by the matching branch; an unknown condition string leaves
it False. The threshold is a REAL column value (a finite float). -/
def applyCondition (cond : String) (metricValue : PyFloat) (threshold : ℚ) : Bool :=
  if cond = ">" then pyLtF (PyFloat.fin threshold) metricValue
  else if cond = "<" then pyLtF metricValue (PyFloat.fin threshold)
  else if cond = ">=" then pyLeF (PyFloat.fin threshold) metricValue
  else if cond = "<=" then pyLeF metricValue (PyFloat.fin threshold)
  else if cond = "=" then pyEqF metricValue (PyFloat.fin threshold)
  else if cond = "!=" then !(pyEqF metricValue (PyFloat.fin threshold))
  else false

/-- check_alert_condition, given the outcome of
snowflake_service.execute_query for the alert's sql_query (Except.error when
the query raises).  The surrounding try/except maps any raise to
(False, 0); an empty data list or a first row without a numeric field also
gives (False, 0); otherwise the comparator is applied exactly between the
extracted metric and the threshold. -/
def check_alert_condition (execResult : Except String QueryData) (alert : Alert) :
    Bool × PyFloat :=
  match execResult with
  | Except.error _ => (false, PyFloat.fin 0)
  | Except.ok data =>
    match data with
    | [] => (false, PyFloat.fin 0)
    | row :: _ =>
      match findMetricValue row with
      | none => (false, PyFloat.fin 0)
      | some metricValue =>
          (applyCondition alert.condition metricValue alert.thresholdValue, metricValue)

/-- The single-quote character (written by escape to keep strings plain). -/
def pyQuote : String := "\x27"

/-- Decimal rendering of a finite float from its shortest decimal digits,
as Python repr prints it: an integral value gets a trailing ".0", otherwise
the digits of m with the decimal point e places from the right. -/
def decRepr (m : Int) (e : Nat) : String :=
  if e = 0 then toString m ++ ".0"
  else
    let sign := if m < 0 then "-" else ""
    let digits := toString m.natAbs
    let digits :=
      if digits.length ≤ e then
        String.mk (List.replicate (e + 1 - digits.length) '0') ++ digits
      else digits
    sign ++ digits.take (digits.length - e) ++ "." ++ digits.takeRight e

/-- Python repr of a scalar cell (str() of a container uses repr of its
elements).  Cell strings are modelled as containing no quote or backslash
characters, so repr is a plain single-quoted form. -/
def pyReprCell : PyCell → String
  | PyCell.cnone => "None"
  | PyCell.cbool true => "True"
  | PyCell.cbool false => "False"
  | PyCell.cint n => toString n
  | PyCell.cdec m e => decRepr m e
  | PyCell.cinf => "inf"
  | PyCell.cninf => "-inf"
  | PyCell.cnan => "nan"
  | PyCell.cstr s => pyQuote ++ s ++ pyQuote

/-- repr of one key/value item of a row dict. -/
def pyReprPair (p : String × PyCell) : String :=
  pyQuote ++ p.1 ++ pyQuote ++ ": " ++ pyReprCell p.2

/-- repr of a row dict (insertion order = column order). -/
def pyReprRow (row : List (String × PyCell)) : String :=
  "\x7b" ++ String.intercalate ", " (row.map pyReprPair) ++ "\x7d"

/-- str(result["data"]): the serialization cache_result receives from
SnowflakeService.execute_query. -/
def pyReprData (data : QueryData) : String :=
  "[" ++ String.intercalate ", " (data.map pyReprRow) ++ "]"

/-!
Python eval over the grammar that pyReprData emits, as performed on a cache
hit in SnowflakeService.execute_query (eval(cached_result["data"])).  The
module namespace of snowflake_service binds none of the bare names that
repr can print for non-finite floats (inf, nan), so eval of such text
raises NameError; this is modelled by the parser returning Except.error.
The parser is fuelled; every entry point supplies fuel no smaller than the
input length, which is ample since each step consumes input.
-/

/-- Digits of a decimal literal to a natural number. -/
def digitsToNat (cs : List Char) : Nat :=
  cs.foldl (fun acc c => acc * 10 + (c.toNat - '0'.toNat)) 0

/-- Parse one scalar token: a literal constant, a number, a quoted string,
or a bare name (which raises NameError, as in eval). -/
def parseCell (cs : List Char) : Except String (PyCell × List Char) :=
  match cs with
  | [] => Except.error "SyntaxError: unexpected EOF while parsing"
  | c :: rest =>
    if c = '\x27' then
      let body := rest.takeWhile (fun d => d ≠ '\x27')
      let rest2 := rest.dropWhile (fun d => d ≠ '\x27')
      match rest2 with
      | '\x27' :: rest3 => Except.ok (PyCell.cstr (String.mk body), rest3)
      | _ => Except.error "SyntaxError: EOL while scanning string literal"
    else if c.isAlpha then
      let tok := String.mk (cs.takeWhile Char.isAlpha)
      let rest2 := cs.dropWhile Char.isAlpha
      if tok = "None" then Except.ok (PyCell.cnone, rest2)
      else if tok = "True" then Except.ok (PyCell.cbool true, rest2)
      else if tok = "False" then Except.ok (PyCell.cbool false, rest2)
      else Except.error ("NameError: name " ++ pyQuote ++ tok ++ pyQuote ++ " is not defined")
    else if c = '-' || c.isDigit then
      let (neg, cs1) := if c = '-' then (true, rest) else (false, cs)
      match cs1 with
      | [] => Except.error "SyntaxError: invalid syntax"
      | d :: _ =>
        if d.isAlpha then
          let tok := String.mk (cs1.takeWhile Char.isAlpha)
          Except.error ("NameError: name " ++ pyQuote ++ tok ++ pyQuote ++ " is not defined")
        else if d.isDigit then
          let intDigits := cs1.takeWhile Char.isDigit
          let cs2 := cs1.dropWhile Char.isDigit
          let intVal : Int := Int.ofNat (digitsToNat intDigits)
          let intVal := if neg then -intVal else intVal
          match cs2 with
          | '.' :: cs3 =>
            let fracDigits := cs3.takeWhile Char.isDigit
            let cs4 := cs3.dropWhile Char.isDigit
            let mAbs := digitsToNat intDigits * 10 ^ fracDigits.length + digitsToNat fracDigits
            let m : Int := if neg then -(Int.ofNat mAbs) else Int.ofNat mAbs
            Except.ok (PyCell.cdec m fracDigits.length, cs4)
          | _ => Except.ok (PyCell.cint intVal, cs2)
        else Except.error "SyntaxError: invalid syntax"
    else Except.error "SyntaxError: invalid syntax"

/-- Parse the items of a row dict after its opening brace (first pair
pending), separated by ", ", closed by a brace. -/
def parsePairs (fuel : Nat) (cs : List Char) :
    Except String (List (String × PyCell) × List Char) :=
  match fuel with
  | 0 => Except.error "SyntaxError: invalid syntax"
  | fuel + 1 =>
    match cs with
    | '\x27' :: rest =>
      let key := rest.takeWhile (fun d => d ≠ '\x27')
      let rest2 := rest.dropWhile (fun d => d ≠ '\x27')
      match rest2 with
      | '\x27' :: ':' :: ' ' :: rest3 =>
        match parseCell rest3 with
        | Except.error e => Except.error e
        | Except.ok (v, rest4) =>
          match rest4 with
          | '\x7d' :: rest5 => Except.ok ([(String.mk key, v)], rest5)
          | ',' :: ' ' :: rest5 =>
            match parsePairs fuel rest5 with
            | Except.error e => Except.error e
            | Except.ok (pairs, rest6) => Except.ok ((String.mk key, v) :: pairs, rest6)
          | _ => Except.error "SyntaxError: invalid syntax"
      | _ => Except.error "SyntaxError: invalid syntax"
    | _ => Except.error "SyntaxError: invalid syntax"

/-- Parse one row dict. -/
def parseRow (fuel : Nat) (cs : List Char) :
    Except String (List (String × PyCell) × List Char) :=
  match cs with
  | '\x7b' :: '\x7d' :: rest => Except.ok ([], rest)
  | '\x7b' :: rest => parsePairs fuel rest
  | _ => Except.error "SyntaxError: invalid syntax"

/-- Parse the rows of the data list (first row pending), separated by ", ",
closed by a bracket. -/
def parseRows (fuel : Nat) (cs : List Char) :
    Except String (QueryData × List Char) :=
  match fuel with
  | 0 => Except.error "SyntaxError: invalid syntax"
  | fuel + 1 =>
    match parseRow fuel cs with
    | Except.error e => Except.error e
    | Except.ok (row, rest) =>
      match rest with
      | ']' :: rest2 => Except.ok ([row], rest2)
      | ',' :: ' ' :: rest2 =>
        match parseRows fuel rest2 with
        | Except.error e => Except.error e
        | Except.ok (rows, rest3) => Except.ok (row :: rows, rest3)
      | _ => Except.error "SyntaxError: invalid syntax"

/-- eval of a serialized data payload: the whole input must parse as one
list of row dicts. -/
def pyEvalData (s : String) : Except String QueryData :=
  match s.data with
  | '[' :: ']' :: rest =>
      if rest.isEmpty then Except.ok [] else Except.error "SyntaxError: invalid syntax"
  | '[' :: cs =>
    match parseRows (s.length + 1) cs with
    | Except.error e => Except.error e
    | Except.ok (rows, rest) =>
      if rest.isEmpty then Except.ok rows
      else Except.error "SyntaxError: invalid syntax"
  | _ => Except.error "SyntaxError: invalid syntax"

/-- The configurable settings the core reads (app/core/config.py defaults;
pydantic BaseSettings lets the environment override them). -/
structure Settings where
  cacheTtlSeconds : Nat := 3600
  maxCacheSize : Nat := 1000
deriving DecidableEq, Repr

/-- CACHE_TTL_SECONDS = 3600, MAX_CACHE_SIZE = 1000. -/
def defaultSettings : Settings := {}

/-- A row of the query_cache table. -/
structure CacheEntry where
  queryHash : String
  sqlQuery : String
  resultData : String
  resultMetadata : String
  createdAt : Nat
  expiresAt : Nat
  accessCount : Nat
  lastAccessed : Nat
deriving DecidableEq, Repr

/-- The query_cache table (query_hash carries a UNIQUE constraint, kept by
insert-or-replace). -/
abbrev CacheState : Type := List CacheEntry

/-- CacheManager.get_cache_key: sha-256 hexdigest of the query text,
modelled by an injective key function. -/
def get_cache_key (sqlQuery : String) : String := sqlQuery

/-- INSERT OR REPLACE keyed by the UNIQUE query_hash column: any existing
row with the same hash is replaced. -/
def insertOrReplace (st : CacheState) (e : CacheEntry) : CacheState :=
  st.filter (fun e2 => e2.queryHash ≠ e.queryHash) ++ [e]

/-- Comparison by last_accessed used by the eviction ORDER BY. -/
def laLe (a b : CacheEntry) : Prop := a.lastAccessed ≤ b.lastAccessed

instance : DecidableRel laLe := fun a b => Nat.decLe _ _

instance : IsTotal CacheEntry laLe := ⟨fun a b => Nat.le_total _ _⟩

instance : IsTrans CacheEntry laLe := ⟨fun _ _ _ h h2 => Nat.le_trans h h2⟩

/-- The rows the size-limit branch deletes: the cleanup_count rows with the
lowest last_accessed (ORDER BY last_accessed ASC LIMIT cleanup_count). -/
def evictedRows (st : CacheState) (cleanupCount : Nat) : CacheState :=
  (List.insertionSort laLe st).take cleanupCount

/-- The rows surviving that deletion. -/
def survivingRows (st : CacheState) (cleanupCount : Nat) : CacheState :=
  (List.insertionSort laLe st).drop cleanupCount

/-- CacheManager.cleanup_expired_cache at time now: delete rows with
expires_at ≤ now; then, if the remaining count exceeds MAX_CACHE_SIZE,
delete the (count - MAX_CACHE_SIZE + 10) rows with the lowest
last_accessed. -/
def cleanup_expired_cache (s : Settings) (st : CacheState) (now : Nat) : CacheState :=
  let st1 := st.filter (fun e => now < e.expiresAt)
  let count := st1.length
  if s.maxCacheSize < count then
    survivingRows st1 (count - s.maxCacheSize + 10)
  else st1

/-- CacheManager.cache_result: upsert the serialized result under the query
hash with expires_at = now + CACHE_TTL_SECONDS (created_at and
last_accessed default to the current timestamp, access_count to 0), then
run cleanup_expired_cache. -/
def mkCacheEntry (s : Settings) (sqlQuery resultData resultMetadata : String)
    (now : Nat) : CacheEntry :=
  { queryHash := get_cache_key sqlQuery
    sqlQuery := sqlQuery
    resultData := resultData
    resultMetadata := resultMetadata
    createdAt := now
    expiresAt := now + s.cacheTtlSeconds
    accessCount := 0
    lastAccessed := now }

def cache_result (s : Settings) (st : CacheState)
    (sqlQuery resultData resultMetadata : String) (now : Nat) : CacheState :=
  cleanup_expired_cache s
    (insertOrReplace st (mkCacheEntry s sqlQuery resultData resultMetadata now)) now

/-- What a cache hit returns to execute_query: the stored result_data,
result_metadata and created_at column values. -/
structure CacheHit where
  data : String
  metadata : String
  cachedAt : Nat
deriving DecidableEq, Repr

/-- CacheManager.get_cached_result at time now.  The function body has no
exception handler: a storage fault on the sqlite read is modelled by the
fault flag and propagates as Except.error.  Otherwise: select the row whose
query_hash matches and whose expires_at > now; on a hit, bump access_count
and last_accessed and return the stored columns; on a miss return None. -/
def get_cached_result (fault : Bool) (st : CacheState) (sqlQuery : String)
    (now : Nat) : Except String (Option CacheHit × CacheState) :=
  if fault then Except.error "storage fault" else
  let cacheKey := get_cache_key sqlQuery
  match st.find? (fun e => e.queryHash = cacheKey && now < e.expiresAt) with
  | some e =>
      let st2 := st.map (fun e2 =>
        if e2.queryHash = cacheKey then
          { e2 with accessCount := e2.accessCount + 1, lastAccessed := now }
        else e2)
      Except.ok (some ⟨e.resultData, e.resultMetadata, e.createdAt⟩, st2)
  | none => Except.ok (none, st)

/-- One put operation of a workload: cache_result with its arguments and
invocation time. -/
structure PutOp where
  sqlQuery : String
  resultData : String
  resultMetadata : String
  time : Nat

/-- A sequence of cache_result calls applied in order. -/
def applyPuts (s : Settings) (st : CacheState) : List PutOp → CacheState
  | [] => st
  | op :: ops =>
      applyPuts s (cache_result s st op.sqlQuery op.resultData op.resultMetadata op.time) ops

/-- The environment of one SnowflakeService.execute_query call: whether the
sqlite read under get_cached_result faults, and the outcome of the
synchronous warehouse round trip (_execute_query_sync), Except.error when
it raises. -/
structure ExecEnv where
  cacheReadFault : Bool
  warehouse : Except String QueryData

/-- The dict execute_query returns (metadata kept as its stored string;
execution_time elided). -/
structure ExecResult where
  data : QueryData
  metadata : String
  cached : Bool
  fromCache : Bool
deriving DecidableEq, Repr

/-- The metadata string built and cached on a fresh execution
(str(result["metadata"]): columns, row_count, query, column_types); its
exact shape matters to no claim, only that it is stored and returned. -/
def mkMetadataStr (sqlQuery : String) (data : QueryData) : String :=
  "\x7b" ++ pyQuote ++ "row_count" ++ pyQuote ++ ": " ++ toString data.length
    ++ ", " ++ pyQuote ++ "query" ++ pyQuote ++ ": " ++ pyQuote ++ sqlQuery ++ pyQuote ++ "\x7d"

/-- SnowflakeService.execute_query with use_cache=True at time now.
The cache lookup precedes the try block, so a storage fault there
propagates to the caller; on a hit, eval of the stored payload also runs
outside any handler, so its NameError/SyntaxError propagates.  On a miss
the warehouse executes inside the try (its failure is re-raised as
"Database query failed: ...") and a non-empty result is cached via
cache_result. -/
def execute_query (env : ExecEnv) (s : Settings) (st : CacheState)
    (sqlQuery : String) (now : Nat) : Except String (ExecResult × CacheState) :=
  match get_cached_result env.cacheReadFault st sqlQuery now with
  | Except.error e => Except.error e
  | Except.ok (some hit, st1) =>
    match pyEvalData hit.data with
    | Except.error e => Except.error e
    | Except.ok data =>
        Except.ok ({ data := data, metadata := hit.metadata,
                     cached := true, fromCache := true }, st1)
  | Except.ok (none, st1) =>
    match env.warehouse with
    | Except.error e => Except.error ("Database query failed: " ++ e)
    | Except.ok data =>
      let st2 :=
        if data.isEmpty then st1
        else cache_result s st1 sqlQuery (pyReprData data) (mkMetadataStr sqlQuery data) now
      Except.ok ({ data := data, metadata := mkMetadataStr sqlQuery data,
                   cached := false, fromCache := false }, st2)

/-- A row of the users table (the fields the alert pipeline touches). -/
structure User where
  id : Nat
  email : String
deriving DecidableEq, Repr

/-- A row of the alert_history table. -/
structure HistoryRecord where
  alertId : Nat
  metricValue : PyFloat
  thresholdValue : ℚ
  message : String
  notificationSent : Bool
deriving DecidableEq, Repr

/-- The sqlite state the alert endpoints read and write. -/
structure Db where
  users : List User
  alerts : List Alert
  history : List HistoryRecord
deriving DecidableEq, Repr

/-- The SMTP environment of one send_email_notification call: whether
SMTP_SERVER, SMTP_USERNAME and SMTP_PASSWORD are all configured, and
whether the SMTP session (connect/starttls/login/sendmail/quit) completes
without raising. -/
structure EmailEnv where
  configPresent : Bool
  sendOk : Bool
deriving DecidableEq, Repr

deriving instance DecidableEq for Except

/-- The webhook environment of one send_slack_notification call: whether
SLACK_WEBHOOK_URL is configured, and the outcome of requests.post
(Except.error when it raises, otherwise the HTTP status code). -/
structure SlackEnv where
  webhookConfigured : Bool
  postResult : Except String Nat
deriving DecidableEq, Repr

/-- send_email_notification: False when the SMTP settings are missing;
otherwise True when the SMTP session completes, and the surrounding
try/except turns any raise into False. -/
def send_email_notification (env : EmailEnv) : Bool :=
  if env.configPresent = false then false
  else if env.sendOk then true
  else false

/-- send_slack_notification: False when no webhook URL is configured;
otherwise the result is status_code == 200, and the surrounding try/except
turns any raise into False. -/
def send_slack_notification (env : SlackEnv) : Bool :=
  if env.webhookConfigured = false then false
  else
    match env.postResult with
    | Except.error _ => false
    | Except.ok status => status = 200

/-- The notification section of process_triggered_alert: notification_sent
starts False; when the method is in ["email", "both"] it is or-ed with the
email outcome; when the method is in ["slack", "both"] it is or-ed with the
slack outcome. -/
def dispatchNotifications (method : String) (ee : EmailEnv) (se : SlackEnv) : Bool :=
  let ns := false
  let ns := if method = "email" || method = "both"
            then ns || send_email_notification ee else ns
  let ns := if method = "slack" || method = "both"
            then ns || send_slack_notification se else ns
  ns

/-- The environment of one process_triggered_alert call: the two transport
environments plus fault flags for its two sqlite writes (the alert_history
INSERT and the alerts UPDATE), each of which runs as its own
connection-and-commit in DatabaseManager.execute_non_query. -/
structure ProcEnv where
  emailEnv : EmailEnv
  slackEnv : SlackEnv
  insertFault : Bool
  updateFault : Bool
deriving DecidableEq, Repr

/-- The rendered notification message (shape immaterial to every claim). -/
def mkAlertMessage (alert : Alert) (metricValue : PyFloat) (u : User) (now : Nat) : String :=
  "Alert Triggered: " ++ alert.alertName ++ " metric " ++ alert.metric
    ++ " for " ++ u.email ++ " at " ++ toString now

/-- process_triggered_alert: send the notifications, then INSERT one
alert_history row recording the outcome, then UPDATE the alert's
last_triggered and trigger_count.  The two writes are separate
autocommitted statements; an exception from either is caught by the
function's except clause, which returns False — so a fault on the UPDATE
leaves the already-committed history row in place. -/
def process_triggered_alert (env : ProcEnv) (alert : Alert) (metricValue : PyFloat)
    (u : User) (now : Nat) (db : Db) : Bool × Db :=
  let notificationSent := dispatchNotifications alert.notificationMethod env.emailEnv env.slackEnv
  if env.insertFault then (false, db)
  else
    let record : HistoryRecord :=
      { alertId := alert.id
        metricValue := metricValue
        thresholdValue := alert.thresholdValue
        message := mkAlertMessage alert metricValue u now
        notificationSent := notificationSent }
    let db1 : Db := { db with history := db.history ++ [record] }
    if env.updateFault then (false, db1)
    else
      let db2 : Db := { db1 with alerts := db1.alerts.map (fun a =>
        if a.id = alert.id then
          { a with lastTriggered := some now, triggerCount := a.triggerCount + 1 }
        else a) }
      (notificationSent, db2)

/-- The value process_triggered_alert returns, as a function of its
environment alone: False when either write faults, otherwise the dispatch
outcome. -/
def procSent (env : ProcEnv) (method : String) : Bool :=
  if env.insertFault then false
  else if env.updateFault then false
  else dispatchNotifications method env.emailEnv env.slackEnv

/-- The field update applied to a matching alerts row by the trigger
UPDATE of process_triggered_alert. -/
def bumpTrigger (alertId : Nat) (now : Nat) (x : Alert) : Alert :=
  if x.id = alertId then
    { x with lastTriggered := some now, triggerCount := x.triggerCount + 1 }
  else x

/-- The field update applied to a matching alerts row by the last_checked
UPDATE of the batch loop. -/
def stampField (alertId : Nat) (now : Nat) (x : Alert) : Alert :=
  if x.id = alertId then { x with lastChecked := some now } else x

/-- UPDATE alerts SET last_checked = now WHERE id = alertId. -/
def stampLastChecked (db : Db) (alertId : Nat) (now : Nat) : Db :=
  { db with alerts := db.alerts.map (fun a =>
      if a.id = alertId then { a with lastChecked := some now } else a) }

/-- The per-alert environment of one check_all_alerts iteration: a fault
flag for the last_checked UPDATE, the outcome of the alert query's
execution (what check_alert_condition sees), a fault flag for the owner
SELECT, and the process_triggered_alert environment. -/
structure AlertCheckEnv where
  stampFault : Bool
  execResult : Except String QueryData
  userLookupFault : Bool
  procEnv : ProcEnv

/-- One entry of the results list check_all_alerts builds. -/
inductive CheckEntry where
  | triggered (alertId : Nat) (alertName : String) (metricValue : PyFloat)
      (notificationSent : Bool) : CheckEntry
  | notTriggered (alertId : Nat) (alertName : String) (metricValue : PyFloat) : CheckEntry
  | errorEntry (alertId : Nat) (alertName : String) (message : String) : CheckEntry
deriving DecidableEq, Repr

/-- Whether an entry is the error form appended by the loop's except
clause. -/
def isErrorEntry : CheckEntry → Bool
  | CheckEntry.errorEntry _ _ _ => true
  | _ => false

/-- Whether an entry is the triggered form (used for triggered_count). -/
def isTriggeredEntry : CheckEntry → Bool
  | CheckEntry.triggered _ _ _ _ => true
  | _ => false

/-- The body of the check_all_alerts loop for one alert of the snapshot:
inside try, stamp last_checked (a raise here falls to the except clause),
evaluate the condition, and on a met condition look up the owner and
process the trigger; a triggered alert whose owner lookup returns no row
appends no entry at all.  The except clause appends an error entry and the
loop continues. -/
def checkOneAlert (envOf : Nat → AlertCheckEnv) (now : Nat) (db : Db) (alert : Alert) :
    Option CheckEntry × Db :=
  let env := envOf alert.id
  if env.stampFault then
    (some (CheckEntry.errorEntry alert.id alert.alertName "database error"), db)
  else
    let db1 := stampLastChecked db alert.id now
    let res := check_alert_condition env.execResult alert
    if res.1 then
      if env.userLookupFault then
        (some (CheckEntry.errorEntry alert.id alert.alertName "database error"), db1)
      else
        match db1.users.find? (fun u => u.id = alert.userId) with
        | some u =>
          let out := process_triggered_alert env.procEnv alert res.2 u now db1
          (some (CheckEntry.triggered alert.id alert.alertName res.2 out.1), out.2)
        | none => (none, db1)
    else
      (some (CheckEntry.notTriggered alert.id alert.alertName res.2), db1)

/-- The loop of check_all_alerts over the snapshot of active alerts,
threading the database state. -/
def checkAllLoop (envOf : Nat → AlertCheckEnv) (now : Nat) :
    List Alert → Db → List CheckEntry × Db
  | [], db => ([], db)
  | a :: rest, db =>
    let step := checkOneAlert envOf now db a
    let restOut := checkAllLoop envOf now rest step.2
    (match step.1 with
     | some e => e :: restOut.1
     | none => restOut.1, restOut.2)

/-- The response of check_all_alerts. -/
structure CheckAllResult where
  checkedCount : Nat
  triggeredCount : Nat
  results : List CheckEntry
deriving DecidableEq, Repr

/-- check_all_alerts: authenticate the caller (who is then *not* used to
scope the query), snapshot all alerts with is_active = TRUE, run the loop,
and return checked_count = number of snapshot alerts, triggered_count =
number of triggered entries, and the per-alert results list. -/
def check_all_alerts (caller : User) (envOf : Nat → AlertCheckEnv) (now : Nat)
    (db : Db) : CheckAllResult × Db :=
  let active := db.alerts.filter (fun a => a.isActive)
  let out := checkAllLoop envOf now active db
  ({ checkedCount := active.length
     triggeredCount := (out.1.filter isTriggeredEntry).length
     results := out.1 }, out.2)

/-- The entry checkOneAlert appends, as a function of its environment, the
(never-mutated) users table and the alert alone. -/
def entryForAlert (envOf : Nat → AlertCheckEnv) (users : List User) (now : Nat)
    (alert : Alert) : Option CheckEntry :=
  let env := envOf alert.id
  if env.stampFault then
    some (CheckEntry.errorEntry alert.id alert.alertName "database error")
  else
    let res := check_alert_condition env.execResult alert
    if res.1 then
      if env.userLookupFault then
        some (CheckEntry.errorEntry alert.id alert.alertName "database error")
      else
        match users.find? (fun u => u.id = alert.userId) with
        | some _ =>
          some (CheckEntry.triggered alert.id alert.alertName res.2
            (procSent env.procEnv alert.notificationMethod))
        | none => none
    else
      some (CheckEntry.notTriggered alert.id alert.alertName res.2)

/-- get_user_alerts (GET /): SELECT * FROM alerts WHERE user_id = caller
ORDER BY created_at DESC. -/
def get_user_alerts (db : Db) (callerId : Nat) : List Alert :=
  List.insertionSort (fun a b => b.createdAt ≤ a.createdAt)
    (db.alerts.filter (fun a => a.userId = callerId))

/-- get_alert (GET /alert_id): SELECT * FROM alerts WHERE id = ? AND
user_id = caller; none models the 404 branch. -/
def get_alert (db : Db) (callerId : Nat) (alertId : Nat) : Option Alert :=
  (db.alerts.filter (fun a => a.id = alertId && a.userId = callerId)).head?

/-- A minimal alert with the given comparator and threshold (the other
fields are immaterial to condition checking). -/
def mkTestAlert (cond : String) (threshold : ℚ) : Alert :=
  { id := 1, userId := 1, alertName := "test", metric := "m",
    thresholdValue := threshold, condition := cond, notificationMethod := "email",
    sqlQuery := "SELECT 1", isActive := true, lastChecked := none,
    lastTriggered := none, triggerCount := 0, createdAt := 0 }

/-- A concrete active alert owned by the given user. -/
def mkActiveAlert (i : Nat) (uid : Nat) : Alert :=
  { id := i, userId := uid, alertName := "a" ++ toString i, metric := "m",
    thresholdValue := 10, condition := ">", notificationMethod := "both",
    sqlQuery := "q", isActive := true, lastChecked := none,
    lastTriggered := none, triggerCount := 0, createdAt := i }

/-- A process environment with no transports configured and both writes
succeeding. -/
def benignProcEnv : ProcEnv :=
  { emailEnv := ⟨false, false⟩, slackEnv := ⟨false, Except.ok 0⟩,
    insertFault := false, updateFault := false }

/-- A per-alert check environment with no faults and a query yielding no
rows. -/
def benignCheckEnv : AlertCheckEnv :=
  { stampFault := false, execResult := Except.ok [],
    userLookupFault := false, procEnv := benignProcEnv }

/-- C1 scenario: the history INSERT commits and the trigger-count UPDATE
then raises. -/
def c1ProcEnv : ProcEnv := { benignProcEnv with updateFault := true }

/-- C1 scenario database: one alert with trigger_count 0 and no history. -/
def c1Db : Db :=
  { users := [⟨1, "u1@x"⟩], alerts := [mkActiveAlert 1 1], history := [] }

/-- C2 scenario database: three active alerts owned by user 1. -/
def c2Db : Db :=
  { users := [⟨1, "u1@x"⟩],
    alerts := [mkActiveAlert 1 1, mkActiveAlert 2 1, mkActiveAlert 3 1],
    history := [] }

/-- C2 counterexample environments: executing the second alert's query
raises; everything else succeeds. -/
def c2ExecFailEnv (i : Nat) : AlertCheckEnv :=
  if i = 2 then { benignCheckEnv with execResult := Except.error "Database query failed: boom" }
  else benignCheckEnv

/-- C2 amended-scenario environments: the second alert's last_checked
UPDATE raises; everything else succeeds. -/
def c2StampFailEnv (i : Nat) : AlertCheckEnv :=
  if i = 2 then { benignCheckEnv with stampFault := true }
  else benignCheckEnv

/-- C4 counterexample query text. -/
def c4Query : String := "SELECT A FROM T"

/-- C4 counterexample payload: one row whose only cell is the float inf
(a value Snowflake can return for a numeric column). -/
def c4Payload : QueryData := [[("A", PyCell.cinf)]]

/-- C4 counterexample execution environment: the cache is healthy and the
warehouse returns the payload. -/
def c4Env : ExecEnv := { cacheReadFault := false, warehouse := Except.ok c4Payload }

/-- The cache state after the first execute_query call of the C4
counterexample (the put of the round trip). -/
def c4State1 : CacheState :=
  match execute_query c4Env defaultSettings [] c4Query 0 with
  | Except.ok (_, st) => st
  | Except.error _ => []

/-- C8 counterexample database: one active alert owned by user 2. -/
def c8Db : Db :=
  { users := [⟨1, "u1@x"⟩, ⟨2, "u2@x"⟩], alerts := [mkActiveAlert 10 2], history := [] }

/-- C8 counterexample caller: authenticated as user 1. -/
def c8Caller : User := ⟨1, "u1@x"⟩

/-- Whether an Except value is a success. -/
def exceptIsOk {ε α : Type} : Except ε α → Bool
  | Except.ok _ => true
  | Except.error _ => false

/-!
Theorems.  Each claim of the specification is settled by one theorem below
(plus a witness or counterexample where required); shared helper lemmas
come first.
-/

/-- Bool bridge: the disjunction of strict-less and equality decisions is
the less-or-equal decision. -/
theorem decide_lt_or_eq_eq_decide_le (a b : ℚ) :
    (decide (a < b) || decide (a = b)) = decide (a ≤ b) := by
  by_cases h : a ≤ b
  · rcases lt_or_eq_of_le h with h2 | h2 <;> simp [h, h2]
  · have h1 : ¬ a < b := fun hl => h (le_of_lt hl)
    have h2 : ¬ a = b := fun he => h (le_of_eq he)
    simp [h, h1, h2]

/-- pyLeF on finite floats is the exact rational less-or-equal. -/
theorem pyLeF_fin (a b : ℚ) : pyLeF (PyFloat.fin a) (PyFloat.fin b) = decide (a ≤ b) := by
  simp only [pyLeF, pyLtF, pyEqF]
  exact decide_lt_or_eq_eq_decide_le a b

/-- Claim C5: evaluate(alert) returns (false, 0) when the query yields zero
rows or the first row has no numeric-typed field; otherwise the metric is
the first numeric-typed field of the first result row and conditionMet is
the alert's comparator (one of >, <, >=, <=, =, !=) applied exactly between
that floating-point metric and the threshold with no tolerance — so
comparator > with threshold 100 and metric 100 is not triggered, and
comparator = with threshold 3.0 and metric 2.9999999 is not triggered. -/
theorem C5_evaluate_exact_comparators :
    (∀ alert, check_alert_condition (Except.ok []) alert = (false, PyFloat.fin 0))
    ∧ (∀ alert (row : List (String × PyCell)) rest, findMetricValue row = none →
        check_alert_condition (Except.ok (row :: rest)) alert = (false, PyFloat.fin 0))
    ∧ (∀ alert (row : List (String × PyCell)) rest mv, findMetricValue row = some mv →
        check_alert_condition (Except.ok (row :: rest)) alert
          = (applyCondition alert.condition mv alert.thresholdValue, mv))
    ∧ (∀ (a b : ℚ),
        applyCondition ">" (PyFloat.fin a) b = decide (b < a)
        ∧ applyCondition "<" (PyFloat.fin a) b = decide (a < b)
        ∧ applyCondition ">=" (PyFloat.fin a) b = decide (b ≤ a)
        ∧ applyCondition "<=" (PyFloat.fin a) b = decide (a ≤ b)
        ∧ applyCondition "=" (PyFloat.fin a) b = decide (a = b)
        ∧ applyCondition "!=" (PyFloat.fin a) b = decide (a ≠ b))
    ∧ check_alert_condition (Except.ok [[("V", PyCell.cint 100)]]) (mkTestAlert ">" 100)
        = (false, PyFloat.fin 100)
    ∧ check_alert_condition (Except.ok [[("V", PyCell.cdec 29999999 7)]]) (mkTestAlert "=" 3)
        = (false, PyFloat.fin (decValue 29999999 7)) := by
  refine ⟨fun alert => rfl, fun alert row rest h => ?_, fun alert row rest mv h => ?_,
    fun a b => ?_, ?_, ?_⟩
  · simp [check_alert_condition, h]
  · simp [check_alert_condition, h]
  · refine ⟨?_, ?_, ?_, ?_, ?_, ?_⟩ <;>
      simp [applyCondition, pyLtF, pyEqF, pyLeF_fin, decide_lt_or_eq_eq_decide_le, eq_comm]
  · simp [check_alert_condition, findMetricValue, cellIsNumeric, cellToFloat,
      mkTestAlert, applyCondition, pyLtF]
  · simp [check_alert_condition, findMetricValue, cellIsNumeric, cellToFloat,
      mkTestAlert, applyCondition, pyEqF, decValue]
    norm_num

/-- Witness for C5 at concrete inputs: a first row whose only field is a
string has no numeric field, and a row with a numeric field takes the
comparator branch. -/
theorem C5_witness :
    check_alert_condition (Except.ok [[("S", PyCell.cstr "x")]]) (mkTestAlert ">" 1)
      = (false, PyFloat.fin 0)
    ∧ check_alert_condition (Except.ok [[("V", PyCell.cint 7)]]) (mkTestAlert ">" 1)
      = (applyCondition ">" (PyFloat.fin 7) 1, PyFloat.fin 7) := by
  exact ⟨C5_evaluate_exact_comparators.2.1 (mkTestAlert ">" 1) [("S", PyCell.cstr "x")] [] (by decide),
    C5_evaluate_exact_comparators.2.2.1 (mkTestAlert ">" 1) [("V", PyCell.cint 7)] []
      (PyFloat.fin 7) (by decide)⟩

/-- Claim C10: metric extraction classifies boolean-typed values as numeric:
when the first field of the first result row is a boolean, evaluate uses it
as the metric (0.0 or 1.0) instead of skipping it to look for a later
numeric column. -/
theorem C10_bool_metric :
    (∀ alert (k : String) (b : Bool) restFields restRows,
        check_alert_condition
            (Except.ok (((k, PyCell.cbool b) :: restFields) :: restRows)) alert
          = (applyCondition alert.condition (PyFloat.fin (if b then 1 else 0))
               alert.thresholdValue,
             PyFloat.fin (if b then 1 else 0)))
    ∧ check_alert_condition
        (Except.ok [[("FLAG", PyCell.cbool true), ("N", PyCell.cint 5)]])
        (mkTestAlert ">" 0) = (true, PyFloat.fin 1) := by
  constructor
  · intro alert k b restFields restRows
    simp [check_alert_condition, findMetricValue, cellIsNumeric, cellToFloat]
  · decide

/-- Claim C9: for channel = both, dispatch attempts the email and chat
channels independently and the overall sent result is the logical OR of the
per-channel outcomes; each channel's failure, including absent channel
configuration, is caught (the transport functions are total and return
False) — so when email fails and chat succeeds, sent == true. -/
theorem C9_both_channels_or :
    (∀ (ee : EmailEnv) (se : SlackEnv),
        dispatchNotifications "both" ee se
          = (send_email_notification ee || send_slack_notification se))
    ∧ (∀ (sendOk : Bool), send_email_notification ⟨false, sendOk⟩ = false)
    ∧ (∀ (pr : Except String Nat), send_slack_notification ⟨false, pr⟩ = false)
    ∧ (∀ (ee : EmailEnv) (se : SlackEnv) (env : ProcEnv) (alert : Alert)
         (mv : PyFloat) (u : User) (now : Nat) (db : Db),
        env.insertFault = false → env.updateFault = false →
        (process_triggered_alert env alert mv u now db).1
          = dispatchNotifications alert.notificationMethod env.emailEnv env.slackEnv)
    ∧ dispatchNotifications "both" ⟨true, false⟩ ⟨true, Except.ok 200⟩ = true
    ∧ send_email_notification ⟨true, false⟩ = false
    ∧ send_slack_notification ⟨true, Except.ok 200⟩ = true := by
  refine ⟨fun ee se => ?_, fun sendOk => rfl, fun pr => rfl,
    fun ee se env alert mv u now db hi hu => ?_, by decide, by decide, by decide⟩
  · simp [dispatchNotifications]
  · simp [process_triggered_alert, hi, hu]

/-- Witness for C9's process_triggered_alert conjunct at a concrete
fault-free environment. -/
theorem C9_witness :
    (process_triggered_alert benignProcEnv (mkActiveAlert 1 1) (PyFloat.fin 5)
        ⟨1, "u1@x"⟩ 100 c1Db).1
      = dispatchNotifications (mkActiveAlert 1 1).notificationMethod
          benignProcEnv.emailEnv benignProcEnv.slackEnv :=
  C9_both_channels_or.2.2.2.1 ⟨false, false⟩ ⟨false, Except.ok 0⟩ benignProcEnv
    (mkActiveAlert 1 1) (PyFloat.fin 5) ⟨1, "u1@x"⟩ 100 c1Db rfl rfl

/-- Claim C3 (amended): ResultCache.get does not catch storage faults — a
fault on the read path propagates as an exception to the caller, and
SnowflakeService.execute_query then fails as well instead of proceeding
with the uncached execution path; only in the absence of a storage fault
does get never throw (returning a miss for absent or expired entries). -/
theorem C3_cache_get_fault_propagates :
    (∀ (st : CacheState) (q : String) (now : Nat),
        get_cached_result true st q now = Except.error "storage fault")
    ∧ (∀ (wh : Except String QueryData) (s : Settings) (st : CacheState)
         (q : String) (now : Nat),
        execute_query ⟨true, wh⟩ s st q now = Except.error "storage fault")
    ∧ (∀ (st : CacheState) (q : String) (now : Nat),
        exceptIsOk (get_cached_result false st q now) = true) := by
  refine ⟨fun st q now => rfl, fun wh s st q now => rfl, fun st q now => ?_⟩
  unfold get_cached_result
  cases h : st.find? (fun e => e.queryHash = get_cache_key q && now < e.expiresAt) <;>
    simp [h, exceptIsOk]

/-- Counterexample for C3 as stated: with a storage fault on the read path,
get raises instead of returning a miss (None). -/
theorem C3_counterexample :
    get_cached_result true [] "SELECT 1" 0 = Except.error "storage fault"
    ∧ get_cached_result true [] "SELECT 1" 0 ≠ Except.ok (none, []) := by
  exact ⟨rfl, by decide⟩

/-- Claim C1: the code violates the both-or-neither requirement.  At the
failing input (the history INSERT commits, then the alerts UPDATE raises),
process_triggered_alert returns False, the alert_history table holds one
record for the alert, and the alert's trigger_count is still 0 — the count
has drifted from the history log. -/
theorem C1_trigger_count_drift :
    (process_triggered_alert c1ProcEnv (mkActiveAlert 1 1) (PyFloat.fin 5)
        ⟨1, "u1@x"⟩ 100 c1Db).1 = false
    ∧ ((process_triggered_alert c1ProcEnv (mkActiveAlert 1 1) (PyFloat.fin 5)
        ⟨1, "u1@x"⟩ 100 c1Db).2.history.filter (fun h => h.alertId = 1)).length = 1
    ∧ ((process_triggered_alert c1ProcEnv (mkActiveAlert 1 1) (PyFloat.fin 5)
        ⟨1, "u1@x"⟩ 100 c1Db).2.alerts.find? (fun a => a.id = 1)).map
          Alert.triggerCount = some 0 := by
  refine ⟨rfl, ?_, ?_⟩ <;> decide

/-- process_triggered_alert never mutates the users table. -/
theorem proc_users (env : ProcEnv) (a : Alert) (mv : PyFloat) (u : User)
    (now : Nat) (db : Db) :
    (process_triggered_alert env a mv u now db).2.users = db.users := by
  cases hi : env.insertFault <;> cases hu : env.updateFault <;>
    simp [process_triggered_alert, hi, hu]

/-- The value process_triggered_alert returns is procSent of its
environment. -/
theorem proc_fst (env : ProcEnv) (a : Alert) (mv : PyFloat) (u : User)
    (now : Nat) (db : Db) :
    (process_triggered_alert env a mv u now db).1 = procSent env a.notificationMethod := by
  cases hi : env.insertFault <;> cases hu : env.updateFault <;>
    simp [process_triggered_alert, procSent, hi, hu]

/-- checkOneAlert never mutates the users table. -/
theorem checkOne_users (envOf : Nat → AlertCheckEnv) (now : Nat) (db : Db) (a : Alert) :
    (checkOneAlert envOf now db a).2.users = db.users := by
  unfold checkOneAlert
  cases hsf : (envOf a.id).stampFault
  · simp only [hsf]
    cases hmet : (check_alert_condition (envOf a.id).execResult a).1
    · simp [hmet, stampLastChecked]
    · cases hul : (envOf a.id).userLookupFault
      · simp only [hmet, hul, Bool.false_eq_true, if_false, if_true]
        cases hfind : (stampLastChecked db a.id now).users.find? (fun u => u.id = a.userId)
        · simp [hfind, stampLastChecked]
        · simp [hfind, proc_users, stampLastChecked]
      · simp [hmet, hul, stampLastChecked]
  · simp [hsf]

/-- The entry checkOneAlert produces depends only on the environment, the
users table and the alert. -/
theorem checkOne_fst (envOf : Nat → AlertCheckEnv) (now : Nat) (db : Db) (a : Alert) :
    (checkOneAlert envOf now db a).1 = entryForAlert envOf db.users now a := by
  unfold checkOneAlert entryForAlert
  cases hsf : (envOf a.id).stampFault
  · simp only [hsf]
    cases hmet : (check_alert_condition (envOf a.id).execResult a).1
    · simp [hmet]
    · cases hul : (envOf a.id).userLookupFault
      · simp only [hmet, hul, Bool.false_eq_true, if_false, if_true]
        have husers : (stampLastChecked db a.id now).users = db.users := rfl
        rw [husers]
        cases hfind : db.users.find? (fun u => u.id = a.userId)
        · simp [hfind]
        · simp [hfind, proc_fst]
      · simp [hmet, hul]
  · simp [hsf]

/-- The results list of the loop is the filterMap of the per-alert entry
function over the snapshot (per-alert outcomes are independent: an error
or a swallowed evaluation failure for one alert does not affect the
others' entries). -/
theorem checkAllLoop_fst (envOf : Nat → AlertCheckEnv) (now : Nat) :
    ∀ (l : List Alert) (db : Db),
      (checkAllLoop envOf now l db).1 = l.filterMap (entryForAlert envOf db.users now)
  | [], _ => rfl
  | a :: rest, db => by
    simp only [checkAllLoop, List.filterMap_cons]
    have h1 := checkOne_fst envOf now db a
    have h2 := checkOne_users envOf now db a
    have ih := checkAllLoop_fst envOf now rest (checkOneAlert envOf now db a).2
    rw [h2] at ih
    cases hentry : entryForAlert envOf db.users now a
    · rw [h1.trans hentry, ih]
    · rw [h1.trans hentry, ih]


/-- process_triggered_alert preserves the identity, activity flag and
last_checked stamp of every alerts row positionally (its UPDATE touches
only last_triggered and trigger_count). -/
theorem proc_alerts_get (env : ProcEnv) (a : Alert) (mv : PyFloat) (u : User)
    (now : Nat) (db : Db) (i : Nat) (a0 : Alert) (h : db.alerts.get? i = some a0) :
    ∃ a1, (process_triggered_alert env a mv u now db).2.alerts.get? i = some a1
      ∧ a1.id = a0.id ∧ a1.isActive = a0.isActive ∧ a1.lastChecked = a0.lastChecked := by
  cases hi : env.insertFault
  · cases hu : env.updateFault
    · have halerts : (process_triggered_alert env a mv u now db).2.alerts
          = db.alerts.map (bumpTrigger a.id now) := by
        simp [process_triggered_alert, hi, hu, bumpTrigger]
      refine ⟨bumpTrigger a.id now a0, ?_, ?_, ?_, ?_⟩
      · rw [halerts, List.get?_map, h]; rfl
      · by_cases hid : a0.id = a.id <;> simp [bumpTrigger, hid]
      · by_cases hid : a0.id = a.id <;> simp [bumpTrigger, hid]
      · by_cases hid : a0.id = a.id <;> simp [bumpTrigger, hid]
    · have halerts : (process_triggered_alert env a mv u now db).2.alerts = db.alerts := by
        simp [process_triggered_alert, hi, hu]
      exact ⟨a0, by rw [halerts]; exact h, rfl, rfl, rfl⟩
  · have halerts : (process_triggered_alert env a mv u now db).2.alerts = db.alerts := by
      simp [process_triggered_alert, hi]
    exact ⟨a0, by rw [halerts]; exact h, rfl, rfl, rfl⟩

/-- checkOneAlert preserves alerts rows positionally up to stamping: the id
and activity flag are unchanged, last_checked is unchanged or stamped to
now, and when the processed alert has this row's id and its stamp write
does not fault, last_checked is stamped. -/
theorem checkOne_alerts_get (envOf : Nat → AlertCheckEnv) (now : Nat) (db : Db)
    (s : Alert) (i : Nat) (a0 : Alert) (h : db.alerts.get? i = some a0) :
    ∃ a1, (checkOneAlert envOf now db s).2.alerts.get? i = some a1
      ∧ a1.id = a0.id ∧ a1.isActive = a0.isActive
      ∧ (a1.lastChecked = a0.lastChecked ∨ a1.lastChecked = some now)
      ∧ ((envOf s.id).stampFault = false → s.id = a0.id → a1.lastChecked = some now) := by
  unfold checkOneAlert
  cases hsf : (envOf s.id).stampFault
  · have hstampEq : (stampLastChecked db s.id now).alerts
        = db.alerts.map (stampField s.id now) := by
      simp [stampLastChecked, stampField]
    have hstamp : (stampLastChecked db s.id now).alerts.get? i
        = some (stampField s.id now a0) := by
      rw [hstampEq, List.get?_map, h]; rfl
    have hMid_id : (stampField s.id now a0).id = a0.id := by
      by_cases hid : a0.id = s.id <;> simp [stampField, hid]
    have hMid_act : (stampField s.id now a0).isActive = a0.isActive := by
      by_cases hid : a0.id = s.id <;> simp [stampField, hid]
    have hMid_lc : ((stampField s.id now a0).lastChecked = a0.lastChecked
        ∨ (stampField s.id now a0).lastChecked = some now) := by
      by_cases hid : a0.id = s.id
      · right; simp [stampField, hid]
      · left; simp [stampField, hid]
    have hMid_stamped : s.id = a0.id → (stampField s.id now a0).lastChecked = some now := by
      intro hid; simp [stampField, hid.symm]
    simp only [hsf]
    cases hmet : (check_alert_condition (envOf s.id).execResult s).1
    · simp only [hmet, Bool.false_eq_true, if_false]
      exact ⟨stampField s.id now a0, hstamp, hMid_id, hMid_act, hMid_lc,
        fun _ => hMid_stamped⟩
    · cases hul : (envOf s.id).userLookupFault
      · simp only [hmet, hul, Bool.false_eq_true, if_false, if_true]
        cases hfind : (stampLastChecked db s.id now).users.find? (fun u => u.id = s.userId)
        · simp only [hfind]
          exact ⟨stampField s.id now a0, hstamp, hMid_id, hMid_act, hMid_lc,
            fun _ => hMid_stamped⟩
        · simp only [hfind]
          obtain ⟨a1, hget, hid, hact, hlc⟩ :=
            proc_alerts_get (envOf s.id).procEnv s
              (check_alert_condition (envOf s.id).execResult s).2 _ now
              (stampLastChecked db s.id now) i (stampField s.id now a0) hstamp
          exact ⟨a1, hget, hid.trans hMid_id, hact.trans hMid_act,
            by rw [hlc]; exact hMid_lc, fun _ hids => by rw [hlc]; exact hMid_stamped hids⟩
      · simp only [hmet, hul, if_true]
        exact ⟨stampField s.id now a0, hstamp, hMid_id, hMid_act, hMid_lc,
          fun _ => hMid_stamped⟩
  · simp only [hsf, if_true]
    exact ⟨a0, h, rfl, rfl, Or.inl rfl,
      fun hf _ => absurd hf (by decide)⟩

/-- The loop stamps last_checked = now on every alerts row sharing an id
with a snapshot alert whose stamp write does not fault, and otherwise
preserves id, activity and last_checked positionally. -/
theorem checkAllLoop_stamps (envOf : Nat → AlertCheckEnv) (now : Nat) :
    ∀ (l : List Alert) (db : Db) (i : Nat) (a0 : Alert),
      db.alerts.get? i = some a0 →
      ∃ a1, (checkAllLoop envOf now l db).2.alerts.get? i = some a1
        ∧ a1.id = a0.id ∧ a1.isActive = a0.isActive
        ∧ (a1.lastChecked = a0.lastChecked ∨ a1.lastChecked = some now)
        ∧ ((∃ s ∈ l, s.id = a0.id ∧ (envOf s.id).stampFault = false) →
            a1.lastChecked = some now)
  | [], db, i, a0, h => by
    refine ⟨a0, h, rfl, rfl, Or.inl rfl, ?_⟩
    rintro ⟨s, hs, -⟩
    cases hs
  | s :: rest, db, i, a0, h => by
    obtain ⟨aMid, hgetMid, hidMid, hactMid, hlcMid, hstMid⟩ :=
      checkOne_alerts_get envOf now db s i a0 h
    obtain ⟨a1, hget1, hid1, hact1, hlc1, hst1⟩ :=
      checkAllLoop_stamps envOf now rest (checkOneAlert envOf now db s).2 i aMid hgetMid
    refine ⟨a1, ?_, hid1.trans hidMid, hact1.trans hactMid, ?_, ?_⟩
    · simpa [checkAllLoop] using hget1
    · rcases hlc1 with h1 | h1
      · rcases hlcMid with h2 | h2
        · exact Or.inl (h1.trans h2)
        · exact Or.inr (h1.trans h2)
      · exact Or.inr h1
    · rintro ⟨s2, hs2mem, hs2id, hs2nf⟩
      rcases List.mem_cons.mp hs2mem with heq | hmem
      · subst heq
        have hMidStamped : aMid.lastChecked = some now := hstMid hs2nf hs2id
        rcases hlc1 with h1 | h1
        · exact h1.trans hMidStamped
        · exact h1
      · exact hst1 ⟨s2, hmem, hs2id.trans hidMid.symm, hs2nf⟩

/-- Claim C2 (amended): checkAll stamps last_checked = now for each active
alert whose stamp write itself succeeds, before evaluating it; exceptions
raised by the per-alert database steps (the last_checked UPDATE or the
owner lookup) are caught and recorded as an error entry for that alert
without aborting the batch (the results list is the independent filterMap
of a per-alert entry function over the snapshot); checked_count always
equals the number of active alerts.  A query execution error during
evaluation, however, does not raise: check_alert_condition swallows it and
returns (false, 0), yielding a normal not-triggered entry — the error-entry
scenario arises from a per-alert database fault instead, as in the final
concrete conjunct (3 alerts, the second alert's last_checked write raises:
2 successful entries, 1 error entry, checked_count = 3). -/
theorem C2_check_all_batch :
    (∀ (caller : User) (envOf : Nat → AlertCheckEnv) (now : Nat) (db : Db),
        ((check_all_alerts caller envOf now db).1).checkedCount
          = (db.alerts.filter (fun a => a.isActive)).length)
    ∧ (∀ (caller : User) (envOf : Nat → AlertCheckEnv) (now : Nat) (db : Db),
        ((check_all_alerts caller envOf now db).1).results
          = (db.alerts.filter (fun a => a.isActive)).filterMap
              (entryForAlert envOf db.users now))
    ∧ (∀ (envOf : Nat → AlertCheckEnv) (users : List User) (now : Nat) (a : Alert),
        (envOf a.id).stampFault = true →
        entryForAlert envOf users now a
          = some (CheckEntry.errorEntry a.id a.alertName "database error"))
    ∧ (∀ (caller : User) (envOf : Nat → AlertCheckEnv) (now : Nat) (db : Db)
         (i : Nat) (a : Alert),
        db.alerts.get? i = some a → a.isActive = true →
        (envOf a.id).stampFault = false →
        ∃ a2, ((check_all_alerts caller envOf now db).2).alerts.get? i = some a2
          ∧ a2.lastChecked = some now)
    ∧ ((check_all_alerts ⟨9, "admin@x"⟩ c2StampFailEnv 100 c2Db).1
        = { checkedCount := 3, triggeredCount := 0,
            results := [CheckEntry.notTriggered 1 "a1" (PyFloat.fin 0),
                        CheckEntry.errorEntry 2 "a2" "database error",
                        CheckEntry.notTriggered 3 "a3" (PyFloat.fin 0)] }) := by
  refine ⟨fun caller envOf now db => rfl,
    fun caller envOf now db => ?_,
    fun envOf users now a hsf => by simp [entryForAlert, hsf],
    fun caller envOf now db i a hget hact hsf => ?_, ?_⟩
  · exact checkAllLoop_fst envOf now (db.alerts.filter (fun a => a.isActive)) db
  · obtain ⟨a2, hget2, _, _, _, hstamped⟩ :=
      checkAllLoop_stamps envOf now (db.alerts.filter (fun a => a.isActive)) db i a hget
    refine ⟨a2, hget2, hstamped ⟨a, ?_, rfl, hsf⟩⟩
    exact List.mem_filter.mpr ⟨List.get?_mem hget, by simp [hact]⟩
  · decide

/-- Counterexample for C2 as stated: over 3 active alerts where executing
the second alert's query raises, the swallowed error yields a third
not-triggered entry — 3 successful entries and 0 error entries, not 2 and
1; checked_count is still 3. -/
theorem C2_counterexample :
    (check_all_alerts ⟨9, "admin@x"⟩ c2ExecFailEnv 100 c2Db).1
      = { checkedCount := 3, triggeredCount := 0,
          results := [CheckEntry.notTriggered 1 "a1" (PyFloat.fin 0),
                      CheckEntry.notTriggered 2 "a2" (PyFloat.fin 0),
                      CheckEntry.notTriggered 3 "a3" (PyFloat.fin 0)] }
    ∧ (((check_all_alerts ⟨9, "admin@x"⟩ c2ExecFailEnv 100 c2Db).1).results.filter
          isErrorEntry).length = 0
    ∧ ¬((((check_all_alerts ⟨9, "admin@x"⟩ c2ExecFailEnv 100 c2Db).1).results.filter
          isErrorEntry).length = 1
        ∧ (((check_all_alerts ⟨9, "admin@x"⟩ c2ExecFailEnv 100 c2Db).1).results.filter
            (fun e => !(isErrorEntry e))).length = 2) := by
  refine ⟨by decide, by decide, ?_⟩
  rintro ⟨h1, -⟩
  revert h1
  decide

/-- Witness for C2 at concrete inputs: the error-entry shape under a stamp
fault and the stamping of an active alert's last_checked. -/
theorem C2_witness :
    entryForAlert c2StampFailEnv c2Db.users 100 (mkActiveAlert 2 1)
      = some (CheckEntry.errorEntry 2 "a2" "database error")
    ∧ (∃ a2, ((check_all_alerts ⟨9, "admin@x"⟩ c2StampFailEnv 100 c2Db).2).alerts.get? 0
        = some a2 ∧ a2.lastChecked = some 100) := by
  constructor
  · exact C2_check_all_batch.2.2.1 c2StampFailEnv c2Db.users 100 (mkActiveAlert 2 1)
      (by decide)
  · exact C2_check_all_batch.2.2.2.1 ⟨9, "admin@x"⟩ c2StampFailEnv 100 c2Db 0
      (mkActiveAlert 1 1) (by decide) (by decide) (by decide)

/-- Claim C8 (amended): the single-alert read paths are owner-scoped —
every alert returned by the list endpoint or the by-id endpoint has the
caller as its owner — but the check-all batch endpoint is not: it reads and
acts upon every active alert regardless of the authenticated caller (its
result does not depend on the caller at all). -/
theorem C8_owner_scoping :
    (∀ (db : Db) (uid : Nat) (a : Alert), a ∈ get_user_alerts db uid → a.userId = uid)
    ∧ (∀ (db : Db) (uid aid : Nat) (a : Alert), get_alert db uid aid = some a →
        a.userId = uid ∧ a.id = aid)
    ∧ (∀ (c c2 : User) (envOf : Nat → AlertCheckEnv) (now : Nat) (db : Db),
        check_all_alerts c envOf now db = check_all_alerts c2 envOf now db) := by
  refine ⟨fun db uid a hmem => ?_, fun db uid aid a hsome => ?_,
    fun c c2 envOf now db => rfl⟩
  · unfold get_user_alerts at hmem
    have h1 : a ∈ db.alerts.filter (fun a => a.userId = uid) :=
      (List.mem_insertionSort (fun a b : Alert => b.createdAt ≤ a.createdAt)).mp hmem
    have h2 := (List.mem_filter.mp h1).2
    exact of_decide_eq_true h2
  · have h1 : a ∈ db.alerts.filter (fun a => a.id = aid && a.userId = uid) :=
      List.mem_of_mem_head? hsome
    have h2 := (List.mem_filter.mp h1).2
    have h3 := Bool.and_elim_left h2
    have h4 := Bool.and_elim_right h2
    exact ⟨of_decide_eq_true h4, of_decide_eq_true h3⟩

/-- Counterexample for C8 as stated: a caller authenticated as user 1
invokes check-all and the batch reads and evaluates an alert owned by
user 2 (its entry appears in the results), so a read path acts upon an
alert whose owner is not the caller. -/
theorem C8_counterexample :
    c8Caller.id = 1
    ∧ ((check_all_alerts c8Caller (fun _ => benignCheckEnv) 100 c8Db).1).results
        = [CheckEntry.notTriggered 10 "a10" (PyFloat.fin 0)]
    ∧ (c8Db.alerts.find? (fun a => a.id = 10)).map Alert.userId = some 2
    ∧ (2 : Nat) ≠ 1 := by
  refine ⟨rfl, by decide, by decide, by decide⟩

/-- Witness for C8 at concrete inputs: the owner-scoped endpoints only
return the caller's alerts. -/
theorem C8_witness :
    (mkActiveAlert 1 1).userId = 1
    ∧ ((mkActiveAlert 10 2).userId = 2 ∧ (mkActiveAlert 10 2).id = 10) := by
  constructor
  · exact C8_owner_scoping.1 c2Db 1 (mkActiveAlert 1 1) (by decide)
  · exact C8_owner_scoping.2.1 c8Db 2 10 (mkActiveAlert 10 2) (by decide)

/-- Rows surviving the size-limit deletion are rows of the input table. -/
theorem mem_survivingRows {st : CacheState} {n : Nat} {e : CacheEntry}
    (h : e ∈ survivingRows st n) : e ∈ st := by
  have h1 : e ∈ List.insertionSort laLe st := List.drop_subset n _ h
  exact (List.mem_insertionSort laLe).mp h1

/-- Rows surviving cleanup_expired_cache are unexpired rows of the input
table. -/
theorem mem_cleanup {s : Settings} {st : CacheState} {now : Nat} {e : CacheEntry}
    (h : e ∈ cleanup_expired_cache s st now) : e ∈ st ∧ now < e.expiresAt := by
  unfold cleanup_expired_cache at h
  by_cases hc : s.maxCacheSize < (st.filter (fun e => decide (now < e.expiresAt))).length
  · rw [if_pos hc] at h
    have h1 := mem_survivingRows h
    have h2 := List.mem_filter.mp h1
    exact ⟨h2.1, of_decide_eq_true h2.2⟩
  · rw [if_neg hc] at h
    have h2 := List.mem_filter.mp h
    exact ⟨h2.1, of_decide_eq_true h2.2⟩

/-- Every row of the table after cache_result that carries the put key is
the freshly written row: its expiry is exactly put-time + TTL. -/
theorem cache_result_key_expiry {s : Settings} {st : CacheState}
    {q d m : String} {t : Nat} {e : CacheEntry}
    (hmem : e ∈ cache_result s st q d m t) (hkey : e.queryHash = get_cache_key q) :
    e.expiresAt = t + s.cacheTtlSeconds := by
  have h1 : e ∈ insertOrReplace st
      { queryHash := get_cache_key q, sqlQuery := q, resultData := d,
        resultMetadata := m, createdAt := t, expiresAt := t + s.cacheTtlSeconds,
        accessCount := 0, lastAccessed := t } := (mem_cleanup hmem).1
  unfold insertOrReplace at h1
  rcases List.mem_append.mp h1 with h2 | h2
  · have h3 := (List.mem_filter.mp h2).2
    exact absurd hkey (of_decide_eq_true h3)
  · rcases List.mem_singleton.mp h2 with rfl
    rfl

/-- Claim C7: for every query text q, get(q) returns a miss at any time
strictly after created_at + TTL, even if the entry's row is still
physically stored (an entry past expires_at is never returned by lookup).
The second conjunct shows the row is still physically present right after
the put, with the default configuration. -/
theorem C7_expired_entry_miss :
    (∀ (s : Settings) (st : CacheState) (q d m : String) (t t2 : Nat),
        t + s.cacheTtlSeconds < t2 →
        get_cached_result false (cache_result s st q d m t) q t2
          = Except.ok (none, cache_result s st q d m t))
    ∧ (∀ (q d m : String) (t : Nat),
        ∃ e, e ∈ cache_result defaultSettings [] q d m t
          ∧ e.queryHash = get_cache_key q ∧ e.expiresAt = t + 3600) := by
  constructor
  · intro s st q d m t t2 hlate
    have hnone : (cache_result s st q d m t).find?
        (fun e => e.queryHash = get_cache_key q && t2 < e.expiresAt) = none := by
      rw [List.find?_eq_none]
      intro e hmem hpred
      have h1 := Bool.and_elim_left hpred
      have h2 := Bool.and_elim_right hpred
      have hkey : e.queryHash = get_cache_key q := of_decide_eq_true h1
      have ht2 : t2 < e.expiresAt := of_decide_eq_true h2
      rw [cache_result_key_expiry hmem hkey] at ht2
      omega
    unfold get_cached_result
    simp [hnone]
  · intro q d m t
    have hfresh : t < t + 3600 := by omega
    have hcache : cache_result defaultSettings [] q d m t
        = [{ queryHash := get_cache_key q, sqlQuery := q, resultData := d,
             resultMetadata := m, createdAt := t, expiresAt := t + 3600,
             accessCount := 0, lastAccessed := t }] := by
      simp [cache_result, cleanup_expired_cache, insertOrReplace, mkCacheEntry,
        defaultSettings, hfresh]
    rw [hcache]
    exact ⟨_, List.mem_singleton_self _, rfl, rfl⟩

/-- Witness for C7 at a concrete input: a put at time 0 with the default
TTL is a miss at time 3601. -/
theorem C7_witness :
    get_cached_result false (cache_result defaultSettings [] "SELECT 1" "[]" "md" 0)
        "SELECT 1" 3601
      = Except.ok (none, cache_result defaultSettings [] "SELECT 1" "[]" "md" 0) :=
  C7_expired_entry_miss.1 defaultSettings [] "SELECT 1" "[]" "md" 0 3601 (by decide)

/-- After cleanup the table never holds more than MAX_CACHE_SIZE rows
(when the configured size is at least the slack of 10). -/
theorem cleanup_length_le (s : Settings) (st : CacheState) (now : Nat)
    (h10 : 10 ≤ s.maxCacheSize) :
    (cleanup_expired_cache s st now).length ≤ s.maxCacheSize := by
  unfold cleanup_expired_cache
  by_cases hc : s.maxCacheSize < (st.filter (fun e => decide (now < e.expiresAt))).length
  · rw [if_pos hc]
    unfold survivingRows
    rw [List.length_drop, List.length_insertionSort]
    omega
  · rw [if_neg hc]
    omega

/-- A single cache_result call leaves at most MAX_CACHE_SIZE rows. -/
theorem cache_result_length_le (s : Settings) (st : CacheState)
    (q d m : String) (t : Nat) (h10 : 10 ≤ s.maxCacheSize) :
    (cache_result s st q d m t).length ≤ s.maxCacheSize :=
  cleanup_length_le s _ t h10

/-- Claim C6: after any sequence of put operations the cache row count
never exceeds max_size + slack(10) - 1 (the code in fact keeps it at or
below max_size); and when a put finds the count above max size, the
maintenance sweep evicts lowest-last_accessed rows first, leaving exactly
max_size - slack(10) rows, every evicted row having last_accessed at most
that of every surviving row. -/
theorem C6_cache_size_bound :
    (∀ (s : Settings), 10 ≤ s.maxCacheSize → ∀ (ops : List PutOp) (st : CacheState),
        st.length ≤ s.maxCacheSize + 10 - 1 →
        (applyPuts s st ops).length ≤ s.maxCacheSize + 10 - 1)
    ∧ (∀ (s : Settings) (st : CacheState) (now : Nat), 10 ≤ s.maxCacheSize →
        s.maxCacheSize < (st.filter (fun e => now < e.expiresAt)).length →
        (cleanup_expired_cache s st now).length = s.maxCacheSize - 10
        ∧ ∀ kept ∈ cleanup_expired_cache s st now,
            ∀ ev ∈ evictedRows (st.filter (fun e => now < e.expiresAt))
                ((st.filter (fun e => now < e.expiresAt)).length - s.maxCacheSize + 10),
              ev.lastAccessed ≤ kept.lastAccessed) := by
  constructor
  · intro s h10 ops
    induction ops with
    | nil => intro st hst; exact hst
    | cons op rest ih =>
      intro st hst
      have h1 := cache_result_length_le s st op.sqlQuery op.resultData op.resultMetadata
        op.time h10
      exact ih _ (by omega)
  · intro s st now h10 hc
    have hcleanup : cleanup_expired_cache s st now
        = survivingRows (st.filter (fun e => now < e.expiresAt))
            ((st.filter (fun e => now < e.expiresAt)).length - s.maxCacheSize + 10) := by
      unfold cleanup_expired_cache
      rw [if_pos hc]
    constructor
    · rw [hcleanup]
      unfold survivingRows
      rw [List.length_drop, List.length_insertionSort]
      omega
    · intro kept hkept ev hev
      rw [hcleanup] at hkept
      unfold survivingRows at hkept
      unfold evictedRows at hev
      have hsorted : List.Sorted laLe
          (List.insertionSort laLe (st.filter (fun e => now < e.expiresAt))) :=
        List.sorted_insertionSort laLe _
      have hsplit := List.take_append_drop
        ((st.filter (fun e => now < e.expiresAt)).length - s.maxCacheSize + 10)
        (List.insertionSort laLe (st.filter (fun e => now < e.expiresAt)))
      rw [← hsplit] at hsorted
      have hrel := (List.pairwise_append.mp hsorted).2.2
      exact hrel ev hev kept hkept

/-- Witness for C6 at concrete inputs: an empty workload under a size-12
configuration stays within the bound, and a 13-row table under the same
configuration is evicted down to 12 - 10 = 2 rows. -/
theorem C6_witness :
    (applyPuts ⟨100, 12⟩ [] []).length ≤ 12 + 10 - 1
    ∧ (cleanup_expired_cache ⟨100, 12⟩ ((List.range 13).map (fun i =>
        { queryHash := toString i, sqlQuery := toString i, resultData := "d",
          resultMetadata := "m", createdAt := 0, expiresAt := 50,
          accessCount := 0, lastAccessed := i })) 0).length = 12 - 10 := by
  constructor
  · exact C6_cache_size_bound.1 ⟨100, 12⟩ (by decide) [] [] (by decide)
  · exact (C6_cache_size_bound.2 ⟨100, 12⟩ ((List.range 13).map (fun i =>
      { queryHash := toString i, sqlQuery := toString i, resultData := "d",
        resultMetadata := "m", createdAt := 0, expiresAt := 50,
        accessCount := 0, lastAccessed := i })) 0 (by decide) (by decide)).1

/-- Claim C4 (amended): the cache's own store/lookup path is the identity
on the serialized payload — cache_result(q, d, m) followed by
get_cached_result(q) before the TTL elapses (with the table under
capacity, so the fresh row is not evicted) returns the stored strings d
and m unchanged.  The full payload-level round trip of execute_query is
not the identity for all payloads, because deserialization uses Python
eval on the repr text, which raises for payloads containing non-finite
floats (see the counterexample). -/
theorem C4_round_trip_string_level :
    ∀ (s : Settings) (st : CacheState) (q d m : String) (t t2 : Nat),
      (st.filter (fun e => t < e.expiresAt)).length < s.maxCacheSize →
      t ≤ t2 → t2 < t + s.cacheTtlSeconds →
      ∃ st2, get_cached_result false (cache_result s st q d m t) q t2
          = Except.ok (some ⟨d, m, t⟩, st2) := by
  intro s st q d m t t2 hsize hle hlt
  have httl : t < t + s.cacheTtlSeconds := by omega
  have hfilter : (insertOrReplace st (mkCacheEntry s q d m t)).filter
        (fun x => t < x.expiresAt)
      = (st.filter (fun x => x.queryHash ≠ (mkCacheEntry s q d m t).queryHash)).filter
          (fun x => t < x.expiresAt) ++ [mkCacheEntry s q d m t] := by
    unfold insertOrReplace
    rw [List.filter_append]
    congr 1
    simp [mkCacheEntry, httl]
  have hlenA : ((st.filter (fun x => x.queryHash ≠ (mkCacheEntry s q d m t).queryHash)).filter
        (fun x => t < x.expiresAt)).length
      ≤ (st.filter (fun x => t < x.expiresAt)).length := by
    have hsub : List.Sublist
        (st.filter (fun x => x.queryHash ≠ (mkCacheEntry s q d m t).queryHash)) st :=
      List.filter_sublist st
    exact (hsub.filter _).length_le
  have hcache : cache_result s st q d m t
      = (st.filter (fun x => x.queryHash ≠ (mkCacheEntry s q d m t).queryHash)).filter
          (fun x => t < x.expiresAt) ++ [mkCacheEntry s q d m t] := by
    unfold cache_result cleanup_expired_cache
    rw [hfilter, if_neg]
    rw [List.length_append]
    simp only [List.length_singleton]
    omega
  have hfindA : ((st.filter (fun x => x.queryHash ≠ (mkCacheEntry s q d m t).queryHash)).filter
        (fun x => t < x.expiresAt)).find?
          (fun e => e.queryHash = get_cache_key q && t2 < e.expiresAt) = none := by
    rw [List.find?_eq_none]
    intro x hx hpred
    have hx1 := List.mem_filter.mp hx
    have hx2 := (List.mem_filter.mp hx1.1).2
    have hne : x.queryHash ≠ (mkCacheEntry s q d m t).queryHash := of_decide_eq_true hx2
    have hkey : x.queryHash = get_cache_key q := of_decide_eq_true (Bool.and_elim_left hpred)
    exact hne (by rw [hkey]; rfl)
  have hfind : (cache_result s st q d m t).find?
      (fun e => e.queryHash = get_cache_key q && t2 < e.expiresAt)
      = some (mkCacheEntry s q d m t) := by
    rw [hcache, List.find?_append, hfindA]
    simp [mkCacheEntry, hlt]
  refine ⟨(cache_result s st q d m t).map (fun e2 =>
    if e2.queryHash = get_cache_key q then
      { e2 with accessCount := e2.accessCount + 1, lastAccessed := t2 }
    else e2), ?_⟩
  unfold get_cached_result
  simp only [Bool.false_eq_true, if_false, hfind]
  rfl

/-- Witness for C4's amended round trip at a concrete input: put at time 0
into an empty cache, get at time 1. -/
theorem C4_witness :
    ∃ st2, get_cached_result false
        (cache_result defaultSettings [] "SELECT 1" "[]" "md" 0) "SELECT 1" 1
      = Except.ok (some ⟨"[]", "md", 0⟩, st2) :=
  C4_round_trip_string_level defaultSettings [] "SELECT 1" "[]" "md" 0 1
    (by decide) (by decide) (by decide)

/-- Counterexample for C4 as stated: the put-then-get round trip through
execute_query is not the identity on every payload.  For the payload
[[("A", inf)]] the first call succeeds and caches the repr text; the
second call, within TTL, hits the cache and its eval of that text raises
NameError instead of returning the payload. -/
theorem C4_counterexample :
    execute_query c4Env defaultSettings [] c4Query 0
      = Except.ok ({ data := c4Payload, metadata := mkMetadataStr c4Query c4Payload,
                     cached := false, fromCache := false }, c4State1)
    ∧ execute_query c4Env defaultSettings c4State1 c4Query 10
      = Except.error ("NameError: name " ++ pyQuote ++ "inf" ++ pyQuote
          ++ " is not defined") := by
  constructor
  · decide
  · decide
